import Mathlib

/-!
Verification of the pooled transactional SQL execution engine
(src/src-tauri/src/db.rs, function execute_transaction).

The embedding is shallow and sequential.  The external SQL driver
(sqlx) is modelled as an oracle, a record of response functions that
decide whether each connect, begin, statement execution and commit
succeeds and with which message.  The registry HashMap is an
association list from connection-url strings to pool identifiers;
each successful connect allocates a fresh pool identifier from a
counter, mirroring the fact that each sqlx connect builds a new pool
object.  The function execute_transaction returns, besides the
result the Rust function returns, an explicit trace: the new registry
state, whether a connect was attempted, the resolved pool, the list
of statements actually sent to the backend, and whether a commit was
attempted.  These extra observables are exactly the control-flow
facts of the Rust function and are needed to state reuse, framing and
atomicity properties.
-/

set_option autoImplicit false

namespace DbSpec

/-- Model of serde_json Number as the Rust code consumes it: the code
only calls as_i64 and as_f64, so a number is modelled by the results
of those two accessors.  The payload of as_f64 is modelled as a
rational, standing in for the f64 value; no claim computes with it. -/
structure JNumber where
  asI64 : Option Int
  asF64 : Option Rat
  deriving DecidableEq, Repr

/-- Model of serde_json Value: the DynamicValue of the spec. -/
inductive JValue where
  | null : JValue
  | bool (b : Bool) : JValue
  | num (n : JNumber) : JValue
  | str (s : String) : JValue
  | arr (elems : List JValue) : JValue
  | obj (fields : List (String × JValue)) : JValue

/-- What query.bind produced for one parameter. -/
inductive BoundParam where
  | text (s : String)
  | int (i : Int)
  | float (f : Rat)
  | bool (b : Bool)
  /-- The binding of serde_json Null: a SQL NULL typed as text,
  None of type Option String in the Rust code. -/
  | nullText
  deriving DecidableEq, Repr

/-- One step of the batch: mirrors struct TransactionStep. -/
structure TransactionStep where
  sql : String
  params : List JValue

/-- Mirrors struct TransactionResult. -/
structure TransactionResult where
  success : Bool
  error : Option String
  deriving DecidableEq, Repr

/-- The match on a single parameter inside the bind loop of
execute_transaction, db.rs lines 62-78. -/
def bindParam : JValue → Except String BoundParam
  | .str s => .ok (.text s)
  | .num n =>
    match n.asI64 with
    | some i => .ok (.int i)
    | none =>
      match n.asF64 with
      | some f => .ok (.float f)
      | none => .error "Invalid number type"
  | .bool b => .ok (.bool b)
  | .null => .ok .nullText
  | .arr _ => .error "Unsupported parameter type"
  | .obj _ => .error "Unsupported parameter type"

/-- The bind loop over the parameters of one step: left to right, the
first failing parameter aborts the whole call. -/
def bindParams : List JValue → Except String (List BoundParam)
  | [] => .ok []
  | v :: rest =>
    match bindParam v with
    | .error e => .error e
    | .ok p =>
      match bindParams rest with
      | .error e => .error e
      | .ok ps => .ok (p :: ps)

/-- A statement as sent to the backend: its sql text and its bound
parameters. -/
abbrev ExecutedStmt := String × List BoundParam

/-- The registry map guarded by the Mutex in DbState: connection url
to pool identifier. -/
abbrev ConnMap := List (String × Nat)

/-- Oracle for the external sqlx driver.  Each field answers none for
success and some message for failure; exec and commit may depend on
the statements already executed in the open transaction. -/
structure Driver where
  connectErr : String → Option String
  beginErr : Nat → Option String
  execErr : Nat → List ExecutedStmt → String → List BoundParam → Option String
  commitErr : Nat → List ExecutedStmt → Option String

/-- The managed DbState: the registry map plus the fresh-pool counter
used to model allocation of new pool objects. -/
structure DbState where
  conns : ConnMap
  nextPool : Nat

/-- HashMap lookup by exact string key, no normalization. -/
def lookupConn : ConnMap → String → Option Nat
  | [], _ => none
  | (k, p) :: rest, url => if k = url then some p else lookupConn rest url

/-- HashMap insert: replaces the binding of an existing key, appends
a new binding otherwise. -/
def insertConn : ConnMap → String → Nat → ConnMap
  | [], url, p => [(url, p)]
  | (k, q) :: rest, url, p =>
    if k = url then (k, p) :: rest else (k, q) :: insertConn rest url p

/-- Full observable outcome of one call to execute_transaction. -/
structure Outcome where
  state : DbState
  connectAttempted : Bool
  pool : Option Nat
  executed : List ExecutedStmt
  commitAttempted : Bool
  result : Except String TransactionResult

/-- The step loop of execute_transaction, db.rs lines 57-86: for each
step bind its parameters then execute it, accumulating the statements
actually sent; the first failure stops the loop with the error string
the Rust code returns at that point. -/
def runSteps (drv : Driver) (pool : Nat) (hist : List ExecutedStmt) :
    List TransactionStep → List ExecutedStmt × Option String
  | [] => (hist, none)
  | step :: rest =>
    match bindParams step.params with
    | .error e => (hist, some e)
    | .ok bound =>
      match drv.execErr pool hist step.sql bound with
      | some e => (hist, some ("SQL Error: " ++ e ++ " | Query: " ++ step.sql))
      | none => runSteps drv pool (hist ++ [(step.sql, bound)]) rest

/-- The commit at db.rs line 87 and the success return at lines
89-92, reached once every step has executed. -/
def finishTx (drv : Driver) (st : DbState) (connected : Bool) (pool : Nat)
    (ex : List ExecutedStmt) : Outcome :=
  match drv.commitErr pool ex with
  | some e =>
    { state := st, connectAttempted := connected, pool := some pool, executed := ex,
      commitAttempted := true,
      result := .error ("Failed to commit transaction: " ++ e) }
  | none =>
    { state := st, connectAttempted := connected, pool := some pool, executed := ex,
      commitAttempted := true, result := .ok { success := true, error := none } }

/-- Begin, run all steps, commit: db.rs lines 54-93 after the pool
has been resolved.  The argument connected records whether this call
performed a connect, st is the registry state the call leaves. -/
def runTx (drv : Driver) (st : DbState) (connected : Bool) (pool : Nat)
    (steps : List TransactionStep) : Outcome :=
  match drv.beginErr pool with
  | some e =>
    { state := st, connectAttempted := connected, pool := some pool, executed := [],
      commitAttempted := false,
      result := .error ("Failed to begin transaction: " ++ e) }
  | none =>
    match runSteps drv pool [] steps with
    | (ex, some e) =>
      { state := st, connectAttempted := connected, pool := some pool, executed := ex,
        commitAttempted := false, result := .error e }
    | (ex, none) => finishTx drv st connected pool ex

/-- The whole command execute_transaction, db.rs lines 25-93: look the
url up in the registry; on a miss connect, caching the new pool only
on success; then run the transaction. -/
def execute_transaction (drv : Driver) (st : DbState) (db_url : String)
    (steps : List TransactionStep) : Outcome :=
  match lookupConn st.conns db_url with
  | some pool => runTx drv st false pool steps
  | none =>
    match drv.connectErr db_url with
    | some e =>
      { state := st, connectAttempted := true, pool := none, executed := [],
        commitAttempted := false,
        result := .error ("Failed to connect to database: " ++ e) }
    | none =>
      runTx drv
        { conns := insertConn st.conns db_url st.nextPool, nextPool := st.nextPool + 1 }
        true st.nextPool steps

/-- The pool a call resolves, when pool resolution succeeds: the
cached pool on a hit, the freshly allocated one on a successful
connect, none when the connect fails. -/
def resolvePool (drv : Driver) (st : DbState) (url : String) : Option Nat :=
  match lookupConn st.conns url with
  | some p => some p
  | none =>
    match drv.connectErr url with
    | none => some st.nextPool
    | some _ => none

/-- Well-formedness of a registry state: every cached pool identifier
is below the allocation counter, and distinct urls cache distinct
pools. -/
def WF (st : DbState) : Prop :=
  (∀ url p, lookupConn st.conns url = some p → p < st.nextPool) ∧
  (∀ u1 u2 p1 p2, lookupConn st.conns u1 = some p1 →
    lookupConn st.conns u2 = some p2 → u1 ≠ u2 → p1 ≠ p2)

/-- Decides whether the first character list starts the second. -/
def leadsChars : List Char → List Char → Bool
  | [], _ => true
  | _ :: _, [] => false
  | a :: as, b :: bs => a == b && leadsChars as bs

/-- Decides whether the first character list occurs inside the
second. -/
def occursChars (needle : List Char) : List Char → Bool
  | [] => leadsChars needle []
  | c :: t => leadsChars needle (c :: t) || occursChars needle t

/-- An error message names a statement when the sql text of the
statement occurs verbatim inside the message. -/
def namesStmt (err sql : String) : Bool :=
  occursChars sql.data err.data

/-! Concrete oracles and states used as witnesses. -/

/-- A driver for which every operation succeeds. -/
def okDriver : Driver where
  connectErr := fun _ => none
  beginErr := fun _ => none
  execErr := fun _ _ _ _ => none
  commitErr := fun _ _ => none

/-- A driver whose connect always fails with message boom. -/
def connFailDriver : Driver where
  connectErr := fun _ => some "boom"
  beginErr := fun _ => none
  execErr := fun _ _ _ _ => none
  commitErr := fun _ _ => none

/-- A driver for which every statement execution fails with message
bad, everything else succeeds. -/
def execFailDriver : Driver where
  connectErr := fun _ => none
  beginErr := fun _ => none
  execErr := fun _ _ _ _ => some "bad"
  commitErr := fun _ _ => none

/-- A driver whose commit always fails with message locked,
everything else succeeds. -/
def commitFailDriver : Driver where
  connectErr := fun _ => none
  beginErr := fun _ => none
  execErr := fun _ _ _ _ => none
  commitErr := fun _ _ => some "locked"

/-- The initial managed state: empty registry, counter at zero. -/
def st0 : DbState where
  conns := []
  nextPool := 0

/-! Structural lemmas about the registry map. -/

theorem lookupConn_insert_self (m : ConnMap) (url : String) (p : Nat) :
    lookupConn (insertConn m url p) url = some p := by
  induction m with
  | nil => simp [insertConn, lookupConn]
  | cons kv rest ih =>
    obtain ⟨k, q⟩ := kv
    by_cases h : k = url
    · simp [insertConn, lookupConn, h]
    · simp [insertConn, lookupConn, h, ih]

theorem lookupConn_insert_ne (m : ConnMap) (url u : String) (p : Nat)
    (h : u ≠ url) :
    lookupConn (insertConn m url p) u = lookupConn m u := by
  induction m with
  | nil =>
    simp only [insertConn, lookupConn]
    rw [if_neg (fun hh => h hh.symm)]
  | cons kv rest ih =>
    obtain ⟨k, q⟩ := kv
    by_cases hk : k = url
    · subst hk
      have hku : ¬k = u := fun hh => h hh.symm
      simp only [insertConn, if_pos rfl, lookupConn]
      rw [if_neg hku, if_neg hku]
    · simp only [insertConn, if_neg hk, lookupConn, ih]

theorem lookupConn_insert_cases (m : ConnMap) (url u : String) (p q : Nat)
    (h : lookupConn (insertConn m url p) u = some q) :
    (u = url ∧ q = p) ∨ (u ≠ url ∧ lookupConn m u = some q) := by
  by_cases hu : u = url
  · subst hu
    rw [lookupConn_insert_self] at h
    exact Or.inl ⟨rfl, (Option.some_inj.mp h).symm⟩
  · rw [lookupConn_insert_ne m url u p hu] at h
    exact Or.inr ⟨hu, h⟩

/-! Unfolding lemmas for execute_transaction and runTx. -/

theorem exec_hit (drv : Driver) (st : DbState) (url : String)
    (steps : List TransactionStep) (pool : Nat)
    (h : lookupConn st.conns url = some pool) :
    execute_transaction drv st url steps = runTx drv st false pool steps := by
  unfold execute_transaction
  rw [h]

theorem exec_miss_ok (drv : Driver) (st : DbState) (url : String)
    (steps : List TransactionStep)
    (h1 : lookupConn st.conns url = none) (h2 : drv.connectErr url = none) :
    execute_transaction drv st url steps =
      runTx drv
        { conns := insertConn st.conns url st.nextPool, nextPool := st.nextPool + 1 }
        true st.nextPool steps := by
  unfold execute_transaction
  rw [h1, h2]

theorem exec_miss_fail (drv : Driver) (st : DbState) (url : String)
    (steps : List TransactionStep) (e : String)
    (h1 : lookupConn st.conns url = none) (h2 : drv.connectErr url = some e) :
    execute_transaction drv st url steps =
      { state := st, connectAttempted := true, pool := none, executed := [],
        commitAttempted := false,
        result := .error ("Failed to connect to database: " ++ e) } := by
  unfold execute_transaction
  rw [h1, h2]

theorem runTx_beginFail (drv : Driver) (st : DbState) (c : Bool) (pool : Nat)
    (steps : List TransactionStep) (e : String)
    (hb : drv.beginErr pool = some e) :
    runTx drv st c pool steps =
      { state := st, connectAttempted := c, pool := some pool, executed := [],
        commitAttempted := false,
        result := .error ("Failed to begin transaction: " ++ e) } := by
  unfold runTx
  rw [hb]

theorem runTx_stepsFail (drv : Driver) (st : DbState) (c : Bool) (pool : Nat)
    (steps : List TransactionStep) (ex : List ExecutedStmt) (e : String)
    (hb : drv.beginErr pool = none)
    (hr : runSteps drv pool [] steps = (ex, some e)) :
    runTx drv st c pool steps =
      { state := st, connectAttempted := c, pool := some pool, executed := ex,
        commitAttempted := false, result := .error e } := by
  unfold runTx
  rw [hb, hr]

theorem runTx_commitFail (drv : Driver) (st : DbState) (c : Bool) (pool : Nat)
    (steps : List TransactionStep) (ex : List ExecutedStmt) (e : String)
    (hb : drv.beginErr pool = none)
    (hr : runSteps drv pool [] steps = (ex, none))
    (hc : drv.commitErr pool ex = some e) :
    runTx drv st c pool steps =
      { state := st, connectAttempted := c, pool := some pool, executed := ex,
        commitAttempted := true,
        result := .error ("Failed to commit transaction: " ++ e) } := by
  unfold runTx
  rw [hb, hr]
  show finishTx drv st c pool ex = _
  unfold finishTx
  rw [hc]

theorem runTx_ok (drv : Driver) (st : DbState) (c : Bool) (pool : Nat)
    (steps : List TransactionStep) (ex : List ExecutedStmt)
    (hb : drv.beginErr pool = none)
    (hr : runSteps drv pool [] steps = (ex, none))
    (hc : drv.commitErr pool ex = none) :
    runTx drv st c pool steps =
      { state := st, connectAttempted := c, pool := some pool, executed := ex,
        commitAttempted := true, result := .ok { success := true, error := none } } := by
  unfold runTx
  rw [hb, hr]
  show finishTx drv st c pool ex = _
  unfold finishTx
  rw [hc]

theorem runTx_state (drv : Driver) (st : DbState) (c : Bool) (pool : Nat)
    (steps : List TransactionStep) :
    (runTx drv st c pool steps).state = st := by
  cases hb : drv.beginErr pool with
  | some e => rw [runTx_beginFail drv st c pool steps e hb]
  | none =>
    rcases hr : runSteps drv pool [] steps with ⟨ex, err⟩
    cases err with
    | some e => rw [runTx_stepsFail drv st c pool steps ex e hb hr]
    | none =>
      cases hc : drv.commitErr pool ex with
      | some e => rw [runTx_commitFail drv st c pool steps ex e hb hr hc]
      | none => rw [runTx_ok drv st c pool steps ex hb hr hc]

theorem runTx_connectAttempted (drv : Driver) (st : DbState) (c : Bool) (pool : Nat)
    (steps : List TransactionStep) :
    (runTx drv st c pool steps).connectAttempted = c := by
  cases hb : drv.beginErr pool with
  | some e => rw [runTx_beginFail drv st c pool steps e hb]
  | none =>
    rcases hr : runSteps drv pool [] steps with ⟨ex, err⟩
    cases err with
    | some e => rw [runTx_stepsFail drv st c pool steps ex e hb hr]
    | none =>
      cases hc : drv.commitErr pool ex with
      | some e => rw [runTx_commitFail drv st c pool steps ex e hb hr hc]
      | none => rw [runTx_ok drv st c pool steps ex hb hr hc]

theorem runTx_pool (drv : Driver) (st : DbState) (c : Bool) (pool : Nat)
    (steps : List TransactionStep) :
    (runTx drv st c pool steps).pool = some pool := by
  cases hb : drv.beginErr pool with
  | some e => rw [runTx_beginFail drv st c pool steps e hb]
  | none =>
    rcases hr : runSteps drv pool [] steps with ⟨ex, err⟩
    cases err with
    | some e => rw [runTx_stepsFail drv st c pool steps ex e hb hr]
    | none =>
      cases hc : drv.commitErr pool ex with
      | some e => rw [runTx_commitFail drv st c pool steps ex e hb hr hc]
      | none => rw [runTx_ok drv st c pool steps ex hb hr hc]

theorem exec_resolved (drv : Driver) (st : DbState) (url : String)
    (steps : List TransactionStep) (pool : Nat)
    (h : resolvePool drv st url = some pool) :
    ∃ st2 c, execute_transaction drv st url steps = runTx drv st2 c pool steps := by
  unfold resolvePool at h
  cases hl : lookupConn st.conns url with
  | some p =>
    rw [hl] at h
    cases h
    exact ⟨st, false, exec_hit drv st url steps _ hl⟩
  | none =>
    rw [hl] at h
    cases hc : drv.connectErr url with
    | some e => rw [hc] at h; cases h
    | none =>
      rw [hc] at h
      cases h
      exact ⟨_, true, exec_miss_ok drv st url steps hl hc⟩

/-! Lemmas about the step loop. -/

theorem runSteps_append (drv : Driver) (pool : Nat) (l2 : List TransactionStep) :
    ∀ (l1 : List TransactionStep) (hist : List ExecutedStmt),
      (runSteps drv pool hist l1).2 = none →
      runSteps drv pool hist (l1 ++ l2) =
        runSteps drv pool (runSteps drv pool hist l1).1 l2 := by
  intro l1
  induction l1 with
  | nil => intro hist _; rfl
  | cons s rest ih =>
    intro hist h
    simp only [List.cons_append, runSteps] at h ⊢
    cases hb : bindParams s.params with
    | error e =>
      simp only [hb] at h
      exact Option.noConfusion h
    | ok bound =>
      simp only [hb] at h ⊢
      cases he : drv.execErr pool hist s.sql bound with
      | some e =>
        simp only [he] at h
        exact Option.noConfusion h
      | none =>
        simp only [he] at h ⊢
        exact ih _ h

theorem runSteps_executed_mem (drv : Driver) (pool : Nat) :
    ∀ (l : List TransactionStep) (hist : List ExecutedStmt) (q : ExecutedStmt),
      q ∈ (runSteps drv pool hist l).1 → q ∈ hist ∨ ∃ s ∈ l, q.1 = s.sql := by
  intro l
  induction l with
  | nil => intro hist q hq; exact Or.inl hq
  | cons s rest ih =>
    intro hist q hq
    simp only [runSteps] at hq
    cases hb : bindParams s.params with
    | error e => simp only [hb] at hq; exact Or.inl hq
    | ok bound =>
      simp only [hb] at hq
      cases he : drv.execErr pool hist s.sql bound with
      | some e => simp only [he] at hq; exact Or.inl hq
      | none =>
        simp only [he] at hq
        rcases ih _ q hq with hmem | ⟨s2, hs2, hsql⟩
        · rcases List.mem_append.mp hmem with hh | hone
          · exact Or.inl hh
          · rcases List.mem_singleton.mp hone with rfl
            exact Or.inr ⟨s, List.mem_cons_self s rest, rfl⟩
        · exact Or.inr ⟨s2, List.mem_cons_of_mem s hs2, hsql⟩

/-- A step whose parameter binding fails aborts the call with exactly
that binding error: the offending statement and everything after it
is never sent to the backend, and no commit is attempted. -/
theorem bindFail_aborts (drv : Driver) (st : DbState) (url : String)
    (pre : List TransactionStep) (bad : TransactionStep) (post : List TransactionStep)
    (pool : Nat) (e : String)
    (hres : resolvePool drv st url = some pool)
    (hb : drv.beginErr pool = none)
    (hpre : (runSteps drv pool [] pre).2 = none)
    (hbad : bindParams bad.params = .error e) :
    (execute_transaction drv st url (pre ++ bad :: post)).result = .error e ∧
    (execute_transaction drv st url (pre ++ bad :: post)).commitAttempted = false ∧
    (execute_transaction drv st url (pre ++ bad :: post)).executed =
      (runSteps drv pool [] pre).1 := by
  obtain ⟨st2, c, heq⟩ := exec_resolved drv st url (pre ++ bad :: post) pool hres
  have hr : runSteps drv pool [] (pre ++ bad :: post) =
      ((runSteps drv pool [] pre).1, some e) := by
    rw [runSteps_append drv pool (bad :: post) pre [] hpre]
    simp only [runSteps, hbad]
  rw [heq, runTx_stepsFail drv st2 c pool (pre ++ bad :: post)
    (runSteps drv pool [] pre).1 e hb hr]
  exact ⟨rfl, rfl, rfl⟩

/-! Result-shape and registry lemmas. -/

theorem runTx_result_ok (drv : Driver) (st : DbState) (c : Bool) (pool : Nat)
    (steps : List TransactionStep) (r : TransactionResult)
    (h : (runTx drv st c pool steps).result = .ok r) :
    r = { success := true, error := none } := by
  cases hb : drv.beginErr pool with
  | some e =>
    rw [runTx_beginFail drv st c pool steps e hb] at h
    exact Except.noConfusion h
  | none =>
    rcases hr : runSteps drv pool [] steps with ⟨ex, err⟩
    cases err with
    | some e =>
      rw [runTx_stepsFail drv st c pool steps ex e hb hr] at h
      exact Except.noConfusion h
    | none =>
      cases hc : drv.commitErr pool ex with
      | some e =>
        rw [runTx_commitFail drv st c pool steps ex e hb hr hc] at h
        exact Except.noConfusion h
      | none =>
        rw [runTx_ok drv st c pool steps ex hb hr hc] at h
        exact (Except.ok.inj h).symm

theorem exec_pool_lookup (drv : Driver) (st : DbState) (url : String)
    (steps : List TransactionStep) (p : Nat)
    (h : (execute_transaction drv st url steps).pool = some p) :
    lookupConn (execute_transaction drv st url steps).state.conns url = some p := by
  cases hl : lookupConn st.conns url with
  | some pool =>
    rw [exec_hit drv st url steps pool hl] at h ⊢
    rw [runTx_pool] at h
    rw [runTx_state]
    cases h
    exact hl
  | none =>
    cases hc : drv.connectErr url with
    | some e =>
      rw [exec_miss_fail drv st url steps e hl hc] at h
      exact Option.noConfusion h
    | none =>
      rw [exec_miss_ok drv st url steps hl hc] at h ⊢
      rw [runTx_pool] at h
      rw [runTx_state]
      cases h
      exact lookupConn_insert_self st.conns url st.nextPool

theorem WF_exec (drv : Driver) (st : DbState) (url : String)
    (steps : List TransactionStep) (h : WF st) :
    WF (execute_transaction drv st url steps).state := by
  cases hl : lookupConn st.conns url with
  | some pool =>
    rw [exec_hit drv st url steps pool hl, runTx_state]
    exact h
  | none =>
    cases hc : drv.connectErr url with
    | some e =>
      rw [exec_miss_fail drv st url steps e hl hc]
      exact h
    | none =>
      rw [exec_miss_ok drv st url steps hl hc, runTx_state]
      constructor
      · intro u p hp
        rcases lookupConn_insert_cases st.conns url u st.nextPool p hp with ⟨_, rfl⟩ | ⟨_, hm⟩
        · exact Nat.lt_succ_self _
        · exact Nat.lt_succ_of_lt (h.1 u p hm)
      · intro u1 u2 p1 p2 h1 h2 hne
        rcases lookupConn_insert_cases st.conns url u1 st.nextPool p1 h1 with
          ⟨hequ1, heqp1⟩ | ⟨hu1, hm1⟩
        · rcases lookupConn_insert_cases st.conns url u2 st.nextPool p2 h2 with
            ⟨hequ2, heqp2⟩ | ⟨hu2, hm2⟩
          · exact absurd (hequ1.trans hequ2.symm) hne
          · rw [heqp1]
            exact (Nat.ne_of_lt (h.1 u2 p2 hm2)).symm
        · rcases lookupConn_insert_cases st.conns url u2 st.nextPool p2 h2 with
            ⟨hequ2, heqp2⟩ | ⟨hu2, hm2⟩
          · rw [heqp2]
            exact Nat.ne_of_lt (h.1 u1 p1 hm1)
          · exact h.2 u1 u2 p1 p2 hm1 hm2 hne

theorem WF_st0 : WF st0 := by
  constructor
  · intro url p hp
    exact Option.noConfusion hp
  · intro u1 u2 p1 p2 h1 h2 hne
    exact absurd h1 (fun hh => Option.noConfusion hh)

/-! The claims. -/

/-- C2: for every DynamicValue parameter the binder is a total,
deterministic function of the runtime tag: String binds as text,
Boolean as boolean, Null as a SQL NULL typed as text, array and
object fail with exactly the error string Unsupported parameter
type, and every tag either binds or fails with one of the two
specified error strings, with no fall-through to a default
binding. -/
theorem C2_binder_totality (s : String) (b : Bool) (es : List JValue)
    (fs : List (String × JValue)) (v : JValue) :
    bindParam (.str s) = .ok (.text s) ∧
    bindParam (.bool b) = .ok (.bool b) ∧
    bindParam .null = .ok .nullText ∧
    bindParam (.arr es) = .error "Unsupported parameter type" ∧
    bindParam (.obj fs) = .error "Unsupported parameter type" ∧
    ((∃ p, bindParam v = .ok p) ∨
      bindParam v = .error "Unsupported parameter type" ∨
      bindParam v = .error "Invalid number type") := by
  refine ⟨rfl, rfl, rfl, rfl, rfl, ?_⟩
  cases v with
  | null => exact Or.inl ⟨.nullText, rfl⟩
  | bool b2 => exact Or.inl ⟨.bool b2, rfl⟩
  | str s2 => exact Or.inl ⟨.text s2, rfl⟩
  | arr es2 => exact Or.inr (Or.inl rfl)
  | obj fs2 => exact Or.inr (Or.inl rfl)
  | num n =>
    cases hi : n.asI64 with
    | some i => exact Or.inl ⟨.int i, by simp [bindParam, hi]⟩
    | none =>
      cases hf : n.asF64 with
      | some f => exact Or.inl ⟨.float f, by simp [bindParam, hi, hf]⟩
      | none => exact Or.inr (Or.inr (by simp [bindParam, hi, hf]))

/-- C3: a numeric parameter first tries the 64-bit-integer view and
binds as integer when it is available; otherwise, when the 64-bit
float view is available, it binds as float; otherwise binding fails
with exactly the error string Invalid number type. -/
theorem C3_numeric_coercion (n : JNumber) :
    (∀ i, n.asI64 = some i → bindParam (.num n) = .ok (.int i)) ∧
    (∀ f, n.asI64 = none → n.asF64 = some f → bindParam (.num n) = .ok (.float f)) ∧
    (n.asI64 = none → n.asF64 = none →
      bindParam (.num n) = .error "Invalid number type") := by
  refine ⟨?_, ?_, ?_⟩
  · intro i hi
    simp [bindParam, hi]
  · intro f hi hf
    simp [bindParam, hi, hf]
  · intro hi hf
    simp [bindParam, hi, hf]

theorem C3_numeric_coercion_witness :
    bindParam (.num ⟨some 7, some 7⟩) = .ok (.int 7) ∧
    bindParam (.num ⟨none, some ((3 : Rat) / 2)⟩) = .ok (.float ((3 : Rat) / 2)) ∧
    bindParam (.num ⟨none, none⟩) = .error "Invalid number type" :=
  ⟨(C3_numeric_coercion ⟨some 7, some 7⟩).1 7 rfl,
   (C3_numeric_coercion ⟨none, some ((3 : Rat) / 2)⟩).2.1 ((3 : Rat) / 2) rfl rfl,
   (C3_numeric_coercion ⟨none, none⟩).2.2 rfl rfl⟩

/-- C5: when the identifier is absent from the registry and the
connect fails, the call returns the error string Failed to connect
to database followed by the driver message, and the whole managed
state, registry map included, is left unchanged. -/
theorem C5_connect_failure (drv : Driver) (st : DbState) (url : String)
    (steps : List TransactionStep) (msg : String)
    (h1 : lookupConn st.conns url = none)
    (h2 : drv.connectErr url = some msg) :
    (execute_transaction drv st url steps).result =
      .error ("Failed to connect to database: " ++ msg) ∧
    (execute_transaction drv st url steps).state = st := by
  rw [exec_miss_fail drv st url steps msg h1 h2]
  exact ⟨rfl, rfl⟩

theorem C5_connect_failure_witness :
    (execute_transaction connFailDriver st0 "db" []).result =
      Except.error ("Failed to connect to database: " ++ "boom") ∧
    (execute_transaction connFailDriver st0 "db" []).state = st0 :=
  C5_connect_failure connFailDriver st0 "db" [] "boom" rfl rfl

/-- C6: every non-error return of execute_transaction is exactly the
result with success true and error none; a result with success false
is never constructed. -/
theorem C6_success_shape (drv : Driver) (st : DbState) (url : String)
    (steps : List TransactionStep) (r : TransactionResult)
    (h : (execute_transaction drv st url steps).result = .ok r) :
    r = { success := true, error := none } := by
  cases hl : lookupConn st.conns url with
  | some pool =>
    rw [exec_hit drv st url steps pool hl] at h
    exact runTx_result_ok drv st false pool steps r h
  | none =>
    cases hc : drv.connectErr url with
    | some e =>
      rw [exec_miss_fail drv st url steps e hl hc] at h
      exact Except.noConfusion h
    | none =>
      rw [exec_miss_ok drv st url steps hl hc] at h
      exact runTx_result_ok drv _ true st.nextPool steps r h

theorem C6_success_shape_witness :
    (execute_transaction okDriver st0 "db" [⟨"SELECT 1", []⟩]).result =
      Except.ok { success := true, error := none } ∧
    ({ success := true, error := none } : TransactionResult) =
      { success := true, error := none } :=
  ⟨rfl, C6_success_shape okDriver st0 "db" [⟨"SELECT 1", []⟩]
    { success := true, error := none } rfl⟩

/-- C9: a call with an empty steps sequence, when the pool is
obtained and both begin and commit succeed, sends no statement to
the backend and returns the successful result. -/
theorem C9_empty_batch (drv : Driver) (st : DbState) (url : String) (pool : Nat)
    (hres : resolvePool drv st url = some pool)
    (hb : drv.beginErr pool = none)
    (hc : drv.commitErr pool [] = none) :
    (execute_transaction drv st url []).executed = [] ∧
    (execute_transaction drv st url []).result =
      .ok { success := true, error := none } := by
  obtain ⟨st2, c, heq⟩ := exec_resolved drv st url [] pool hres
  rw [heq, runTx_ok drv st2 c pool [] [] hb rfl hc]
  exact ⟨rfl, rfl⟩

theorem C9_empty_batch_witness :
    (execute_transaction okDriver st0 "db" []).executed = [] ∧
    (execute_transaction okDriver st0 "db" []).result =
      Except.ok { success := true, error := none } :=
  C9_empty_batch okDriver st0 "db" 0 rfl rfl rfl

/-- C1: once the transaction is begun, a commit is attempted exactly
when the step loop finishes without error; an execution failure of a
step surfaces as the SQL Error string embedding the driver message
and the sql text of the failing statement, and a commit failure
surfaces as the distinct Failed to commit transaction string. -/
theorem C1_commit_discipline (drv : Driver) (st : DbState) (url : String)
    (steps : List TransactionStep) (pool : Nat)
    (hres : resolvePool drv st url = some pool)
    (hb : drv.beginErr pool = none) :
    ((execute_transaction drv st url steps).commitAttempted = true ↔
      (runSteps drv pool [] steps).2 = none) ∧
    (∀ pre s post bound msg,
      steps = pre ++ s :: post →
      (runSteps drv pool [] pre).2 = none →
      bindParams s.params = .ok bound →
      drv.execErr pool (runSteps drv pool [] pre).1 s.sql bound = some msg →
      (execute_transaction drv st url steps).result =
        .error ("SQL Error: " ++ msg ++ " | Query: " ++ s.sql)) ∧
    (∀ msg, (runSteps drv pool [] steps).2 = none →
      drv.commitErr pool (runSteps drv pool [] steps).1 = some msg →
      (execute_transaction drv st url steps).result =
        .error ("Failed to commit transaction: " ++ msg)) := by
  obtain ⟨st2, c, heq⟩ := exec_resolved drv st url steps pool hres
  rw [heq]
  refine ⟨?_, ?_, ?_⟩
  · rcases hr : runSteps drv pool [] steps with ⟨ex, err⟩
    cases err with
    | some e =>
      rw [runTx_stepsFail drv st2 c pool steps ex e hb hr]
      simp
    | none =>
      cases hc : drv.commitErr pool ex with
      | some e =>
        rw [runTx_commitFail drv st2 c pool steps ex e hb hr hc]
        simp
      | none =>
        rw [runTx_ok drv st2 c pool steps ex hb hr hc]
        simp
  · intro pre s post bound msg hsplit hpre hbind hexec
    subst hsplit
    have hr : runSteps drv pool [] (pre ++ s :: post) =
        ((runSteps drv pool [] pre).1,
          some ("SQL Error: " ++ msg ++ " | Query: " ++ s.sql)) := by
      rw [runSteps_append drv pool (s :: post) pre [] hpre]
      simp only [runSteps, hbind, hexec]
    rw [runTx_stepsFail drv st2 c pool (pre ++ s :: post)
      (runSteps drv pool [] pre).1 _ hb hr]
  · intro msg hok hcommit
    rcases hr : runSteps drv pool [] steps with ⟨ex, err⟩
    rw [hr] at hok hcommit
    cases err with
    | some e => exact Option.noConfusion hok
    | none =>
      rw [runTx_commitFail drv st2 c pool steps ex msg hb hr hcommit]

theorem C1_commit_discipline_witness :
    (execute_transaction execFailDriver st0 "db" [⟨"SELECT 1", []⟩]).result =
      Except.error ("SQL Error: " ++ "bad" ++ " | Query: " ++ "SELECT 1") ∧
    (execute_transaction commitFailDriver st0 "db" [⟨"SELECT 1", []⟩]).result =
      Except.error ("Failed to commit transaction: " ++ "locked") :=
  ⟨(C1_commit_discipline execFailDriver st0 "db" [⟨"SELECT 1", []⟩] 0 rfl rfl).2.1
      [] ⟨"SELECT 1", []⟩ [] [] "bad" rfl rfl rfl rfl,
   (C1_commit_discipline commitFailDriver st0 "db" [⟨"SELECT 1", []⟩] 0 rfl rfl).2.2
      "locked" rfl rfl⟩

/-- C4: the registry uses the identifier string as the exact key.
When a call resolves a pool for an identifier, a second sequential
call with the byte-identical identifier finds that cached pool and
performs no new connect; and starting from a well-formed registry, a
call with a different identifier never resolves the same pool. -/
theorem C4_pool_reuse (drv1 drv2 : Driver) (st : DbState) (url u2 : String)
    (steps1 steps2 : List TransactionStep) (hWF : WF st) :
    (∀ p, (execute_transaction drv1 st url steps1).pool = some p →
      (execute_transaction drv2 (execute_transaction drv1 st url steps1).state
          url steps2).connectAttempted = false ∧
      (execute_transaction drv2 (execute_transaction drv1 st url steps1).state
          url steps2).pool = some p) ∧
    (u2 ≠ url → ∀ p p2,
      (execute_transaction drv1 st url steps1).pool = some p →
      (execute_transaction drv2 (execute_transaction drv1 st url steps1).state
          u2 steps2).pool = some p2 →
      p2 ≠ p) := by
  constructor
  · intro p hp
    have hlook := exec_pool_lookup drv1 st url steps1 p hp
    rw [exec_hit drv2 (execute_transaction drv1 st url steps1).state url steps2 p hlook]
    exact ⟨runTx_connectAttempted drv2 _ false p steps2, runTx_pool drv2 _ false p steps2⟩
  · intro hne p p2 hp hp2
    have hlook := exec_pool_lookup drv1 st url steps1 p hp
    have hWF1 := WF_exec drv1 st url steps1 hWF
    cases hl2 : lookupConn (execute_transaction drv1 st url steps1).state.conns u2 with
    | some q =>
      rw [exec_hit drv2 (execute_transaction drv1 st url steps1).state u2 steps2 q hl2,
        runTx_pool] at hp2
      have hq := Option.some_inj.mp hp2
      rw [← hq]
      exact hWF1.2 u2 url q p hl2 hlook hne
    | none =>
      cases hc2 : drv2.connectErr u2 with
      | some e =>
        rw [exec_miss_fail drv2 (execute_transaction drv1 st url steps1).state
          u2 steps2 e hl2 hc2] at hp2
        exact Option.noConfusion hp2
      | none =>
        rw [exec_miss_ok drv2 (execute_transaction drv1 st url steps1).state
          u2 steps2 hl2 hc2, runTx_pool] at hp2
        have hq := Option.some_inj.mp hp2
        rw [← hq]
        exact (Nat.ne_of_lt (hWF1.1 url p hlook)).symm

theorem C4_pool_reuse_witness :
    (execute_transaction okDriver st0 "a" []).pool = some 0 ∧
    (execute_transaction okDriver (execute_transaction okDriver st0 "a" []).state
        "a" []).connectAttempted = false ∧
    (execute_transaction okDriver (execute_transaction okDriver st0 "a" []).state
        "a" []).pool = some 0 :=
  ⟨rfl,
   ((C4_pool_reuse okDriver okDriver st0 "a" "b" [] [] WF_st0).1 0 rfl).1,
   ((C4_pool_reuse okDriver okDriver st0 "a" "b" [] [] WF_st0).1 0 rfl).2⟩

/-- C7 counterexample: a batch whose first step is fine and whose
second step carries an array parameter fails with Unsupported
parameter type, as claimed, but the statement of the first step was
executed against the open transaction, so it is false that no
statement in the batch executes. -/
theorem C7_counterexample :
    (execute_transaction okDriver st0 "db"
      [⟨"CREATE TABLE t(x INT)", []⟩,
       ⟨"INSERT INTO t VALUES(?)", [.arr []]⟩]).result =
      Except.error "Unsupported parameter type" ∧
    (execute_transaction okDriver st0 "db"
      [⟨"CREATE TABLE t(x INT)", []⟩,
       ⟨"INSERT INTO t VALUES(?)", [.arr []]⟩]).executed =
      [("CREATE TABLE t(x INT)", [])] :=
  ⟨rfl, rfl⟩

/-- C7 amended: with the pool obtained, begin successful and every
step before the offending one executing cleanly, a step with an
unsupported parameter tag fails the call with Unsupported parameter
type; the offending statement and all later statements are never
sent to the backend, and no commit is attempted, so nothing
persists; statements of earlier steps are sent inside the open
transaction before the abort. -/
theorem C7_unsupported_param (drv : Driver) (st : DbState) (url : String)
    (pool : Nat) (pre : List TransactionStep) (bad : TransactionStep)
    (post : List TransactionStep)
    (hres : resolvePool drv st url = some pool)
    (hb : drv.beginErr pool = none)
    (hpre : (runSteps drv pool [] pre).2 = none)
    (hbad : bindParams bad.params = .error "Unsupported parameter type") :
    (execute_transaction drv st url (pre ++ bad :: post)).result =
      .error "Unsupported parameter type" ∧
    (execute_transaction drv st url (pre ++ bad :: post)).commitAttempted = false ∧
    (execute_transaction drv st url (pre ++ bad :: post)).executed =
      (runSteps drv pool [] pre).1 ∧
    (∀ q ∈ (execute_transaction drv st url (pre ++ bad :: post)).executed,
      ∃ s ∈ pre, q.1 = s.sql) := by
  obtain ⟨h1, h2, h3⟩ :=
    bindFail_aborts drv st url pre bad post pool _ hres hb hpre hbad
  refine ⟨h1, h2, h3, ?_⟩
  intro q hq
  rw [h3] at hq
  rcases runSteps_executed_mem drv pool pre [] q hq with hmem | hex
  · exact absurd hmem (List.not_mem_nil q)
  · exact hex

theorem C7_unsupported_param_witness :
    (execute_transaction okDriver st0 "db"
      [⟨"A", []⟩, ⟨"B", [.obj []]⟩, ⟨"C", []⟩]).result =
      Except.error "Unsupported parameter type" ∧
    (execute_transaction okDriver st0 "db"
      [⟨"A", []⟩, ⟨"B", [.obj []]⟩, ⟨"C", []⟩]).commitAttempted = false ∧
    (execute_transaction okDriver st0 "db"
      [⟨"A", []⟩, ⟨"B", [.obj []]⟩, ⟨"C", []⟩]).executed = [("A", [])] := by
  have h := C7_unsupported_param okDriver st0 "db" 0 [⟨"A", []⟩]
    ⟨"B", [.obj []]⟩ [⟨"C", []⟩] rfl rfl rfl rfl
  exact ⟨h.1, h.2.1, h.2.2.1⟩

/-- C8 counterexample: a numeric parameter with neither a 64-bit
integer nor a 64-bit float view makes the call fail with the fixed
string Invalid number type, and the sql text of the step does not
occur in that message, so the error does not name the statement. -/
theorem C8_counterexample :
    (execute_transaction okDriver st0 "db"
      [⟨"SELECT 1", [.num ⟨none, none⟩]⟩]).result =
      Except.error "Invalid number type" ∧
    namesStmt "Invalid number type" "SELECT 1" = false :=
  ⟨rfl, by decide⟩

/-- C8 amended: when a numeric parameter is representable neither as
a 64-bit integer nor as a 64-bit float, and the steps before the
offending one execute cleanly after a successful begin, the call
fails with exactly the fixed error string Invalid number type, which
is independent of the statement the value belongs to, and no commit
is attempted. -/
theorem C8_invalid_number (drv : Driver) (st : DbState) (url : String)
    (pool : Nat) (pre : List TransactionStep) (bad : TransactionStep)
    (post : List TransactionStep)
    (hres : resolvePool drv st url = some pool)
    (hb : drv.beginErr pool = none)
    (hpre : (runSteps drv pool [] pre).2 = none)
    (hbad : bindParams bad.params = .error "Invalid number type") :
    (execute_transaction drv st url (pre ++ bad :: post)).result =
      .error "Invalid number type" ∧
    (execute_transaction drv st url (pre ++ bad :: post)).commitAttempted = false :=
  let h := bindFail_aborts drv st url pre bad post pool _ hres hb hpre hbad
  ⟨h.1, h.2.1⟩

theorem C8_invalid_number_witness :
    (execute_transaction okDriver st0 "db"
      [⟨"INSERT INTO t VALUES(?)", [.num ⟨none, none⟩]⟩]).result =
      Except.error "Invalid number type" ∧
    (execute_transaction okDriver st0 "db"
      [⟨"INSERT INTO t VALUES(?)", [.num ⟨none, none⟩]⟩]).commitAttempted = false := by
  have h := C8_invalid_number okDriver st0 "db" 0 []
    ⟨"INSERT INTO t VALUES(?)", [.num ⟨none, none⟩]⟩ [] rfl rfl rfl rfl
  exact h

/-- C10: a call leaves every registry entry for other identifiers
unchanged; when its own identifier is already cached, the state is
completely unchanged; and the only possible mutation is the
insertion of a pool under its own identifier when that key was
absent and the connect succeeded. -/
theorem C10_registry_frame (drv : Driver) (st : DbState) (url : String)
    (steps : List TransactionStep) :
    (∀ u, u ≠ url →
      lookupConn (execute_transaction drv st url steps).state.conns u =
        lookupConn st.conns u) ∧
    (∀ p, lookupConn st.conns url = some p →
      (execute_transaction drv st url steps).state = st) ∧
    ((execute_transaction drv st url steps).state = st ∨
      (lookupConn st.conns url = none ∧ drv.connectErr url = none ∧
        (execute_transaction drv st url steps).state =
          { conns := insertConn st.conns url st.nextPool,
            nextPool := st.nextPool + 1 })) := by
  cases hl : lookupConn st.conns url with
  | some pool =>
    rw [exec_hit drv st url steps pool hl, runTx_state]
    exact ⟨fun _ _ => rfl, fun _ _ => rfl, Or.inl rfl⟩
  | none =>
    cases hc : drv.connectErr url with
    | some e =>
      rw [exec_miss_fail drv st url steps e hl hc]
      exact ⟨fun _ _ => rfl, fun _ _ => rfl, Or.inl rfl⟩
    | none =>
      rw [exec_miss_ok drv st url steps hl hc, runTx_state]
      refine ⟨?_, ?_, Or.inr ⟨rfl, rfl, rfl⟩⟩
      · exact fun u hu => lookupConn_insert_ne st.conns url u st.nextPool hu
      · exact fun p hp => Option.noConfusion hp

theorem C10_registry_frame_witness :
    lookupConn (execute_transaction okDriver st0 "a" []).state.conns "b" =
      lookupConn st0.conns "b" :=
  (C10_registry_frame okDriver st0 "a" []).1 "b" (by decide)

end DbSpec
